import Mathlib

/-
  Shallow embedding of the QoS-resource resolution layer of the pfl/containerd
  CRI server (pkg/cri/server: rdt_linux.go, blockio_linux.go,
  qos_resources_linux.go and the NRI-networking variant of the same file).

  Go slices become lists, Go maps become association lists looked up with
  List.lookup, the mutable package-level catalog cniQoSResource becomes an
  explicit state argument, and fallible functions return Except.  External
  collaborators (pkg/rdt, pkg/blockio, encoding/json, go-cni) are modelled as
  abstract state fields / function parameters that the theorems quantify over.
-/

/-- A structured QoS resource request as carried on a CRI config
(runtime.QOSResource: GetName / GetClass). -/
structure QoSRequest where
  name : String
  className : String
deriving DecidableEq, Repr

/-- The slice of a CRI ContainerConfig that the embedded functions read:
metadata name, structured QoS requests, free-form annotations. -/
structure ContainerConfig where
  metadataName : String
  qosResources : List QoSRequest
  annotations : List (String × String)

/-- The slice of a CRI PodSandboxConfig that the embedded functions read. -/
structure PodSandboxConfig where
  qosResources : List QoSRequest
  annotations : List (String × String)

/-- Errors, one constructor per fmt.Errorf site of the embedded code, plus
constructors for errors produced by external collaborators. -/
inductive GoError where
  /-- "unknown pod-level QoS resource type %q" -/
  | unknownPodQoSResourceType (name : String)
  /-- "unknown QoS resource type %q" (container level) -/
  | unknownQoSResourceType (name : String)
  /-- "unknown %s class %q" (dummy catalogs and the net catalog) -/
  | unknownClass (name cls : String)
  /-- "empty class name not allowed for QoS resource type %q" -/
  | emptyClassNotAllowed (name : String)
  /-- "RDT disabled, refusing to set RDT class of container %q to %q" -/
  | rdtDisabled (container cls : String)
  /-- "invalid RDT class %q: not specified in configuration" -/
  | rdtUnknownClass (cls : String)
  /-- "blockio disabled, refusing to set blockio class of container %q to %q" -/
  | blockioDisabled (container cls : String)
  /-- "invalid blockio class %q: not specified in configuration" -/
  | blockioUnknownClass (cls : String)
  /-- an error returned by the external ContainerClassFromAnnotations helpers -/
  | annotationsError (msg : String)
  /-- an error returned by the external blockio.ClassNameToLinuxOCI -/
  | classNameToLinuxOCIFailed (msg : String)
  /-- "failed to set RDT class: %w" -/
  | failedRdt (e : GoError)
  /-- "failed to set blockio class: %w" -/
  | failedBlockio (e : GoError)
  /-- "BUG: unable to parse CNI QoS resources, nil plugin was given" -/
  | nilPlugin
  /-- "unable to parse CNI config for QoS resources: no networks configured" -/
  | cniConfigTooFewNetworks
  /-- "failed to parse CNI config for QoS resources: %w" (carries raw text) -/
  | cniConfigParseError (raw msg : String)
deriving DecidableEq, Repr

/-- Opaque model of the external oci.LinuxBlockIO value produced by
blockio.ClassNameToLinuxOCI (OCI spec construction is an external
collaborator; only identity of the value matters here). -/
structure LinuxBlockioSpec where
  tag : Nat
deriving DecidableEq, Repr

/-- go-cni BandWidth capability arguments. -/
structure BandWidth where
  ingressRate : Nat
  ingressBurst : Nat
  egressRate : Nat
  egressBurst : Nat
deriving DecidableEq, Repr

/-- A generated oci.SpecOpts mutation: either oci.WithRdt(cls, l3, mb) or
oci.WithBlockIO(linuxBlockIO). -/
inductive SpecOpt where
  | withRdt (cls l3 mb : String)
  | withBlockio (b : LinuxBlockioSpec)
deriving DecidableEq, Repr

/-- A generated cni.NamespaceOpts entry (cni.WithCapabilityBandWidth). -/
inductive CNINamespaceOpt where
  | withCapabilityBandWidth (b : BandWidth)
deriving DecidableEq, Repr

/-- CniQoSClass: capacity plus optional bandwidth parameters (the Go field is
a nullable pointer *cni.BandWidth). -/
structure CniQoSClass where
  capacity : Nat
  bandWidth : Option BandWidth
deriving DecidableEq, Repr

/-- QoSResourceRdt of the CRI API ("rdt"). -/
def QoSResourceRdt : String := "rdt"

/-- QoSResourceBlockio of the CRI API ("blockio"). -/
def QoSResourceBlockio : String := "blockio"

/-- QoSResourceNet, declared in the embedded file itself ("net"). -/
def QoSResourceNet : String := "net"

/-- State of the external pkg/rdt collaborator: rdt.IsEnabled(),
rdt.ClassExists (via the class list), rdt.ContainerClassFromAnnotations. -/
structure RdtState where
  enabled : Bool
  classes : List String
  containerClassFromAnnotations :
    String → List (String × String) → List (String × String) → Except GoError String

/-- State of the external pkg/blockio collaborator: blockio.IsEnabled(),
blockio.ClassExists, blockio.ContainerClassFromAnnotations,
blockio.ClassNameToLinuxOCI. -/
structure BlockioState where
  enabled : Bool
  classes : List String
  containerClassFromAnnotations :
    String → List (String × String) → List (String × String) → Except GoError String
  classNameToLinuxOCI : String → Except GoError LinuxBlockioSpec

/-- The criService configuration toggles read by the embedded functions. -/
structure CriConfig where
  ignoreRdtNotEnabledErrors : Bool
  ignoreBlockIONotEnabledErrors : Bool

/-- dummyPodQoSResources, as built in init(). -/
def dummyPodQoSResources : List (String × List String) :=
  [("podres-1", ["qos-a", "qos-b", "qos-c", "qos-d"]),
   ("podres-2", ["cls-1", "cls-2", "cls-3", "cls-4", "cls-5"])]

/-- dummyContainerQoSResources, as built in init(). -/
def dummyContainerQoSResources : List (String × List String) :=
  [("dummy-1", ["class-a", "class-b", "class-c", "class-d"]),
   ("dummy-2", ["platinum", "gold", "silver", "bronze"])]

/-- The scan loop shared by getContainerRdtClass and getContainerBlockioClass:
iterate over the config's QoS requests, recording (found, cls) for every
request whose name matches; a later match overwrites an earlier one. -/
def scanQoSClass (resource : String) (reqs : List QoSRequest) : Bool × String :=
  reqs.foldl
    (fun acc r => if r.name == resource then (true, r.className) else acc)
    (false, "")

/-- getContainerRdtClass of rdt_linux.go: class from the container config's
QoS requests, annotation fallback when no request names rdt, then the
enabled / class-exists checks for a non-empty class. -/
def getContainerRdtClass (rdt : RdtState) (config : ContainerConfig)
    (sandboxConfig : PodSandboxConfig) : Except GoError String :=
  let containerName := config.metadataName
  let fc := scanQoSClass QoSResourceRdt config.qosResources
  let clsE : Except GoError String :=
    if fc.1 then Except.ok fc.2
    else rdt.containerClassFromAnnotations containerName config.annotations
        sandboxConfig.annotations
  match clsE with
  | Except.error e => Except.error e
  | Except.ok cls =>
    if cls == "" then Except.ok cls
    else if !rdt.enabled then Except.error (GoError.rdtDisabled containerName cls)
    else if !(rdt.classes.contains cls) then Except.error (GoError.rdtUnknownClass cls)
    else Except.ok cls

/-- getContainerBlockioClass of blockio_linux.go; same shape as
getContainerRdtClass with the blockio backend and annotation namespace. -/
def getContainerBlockioClass (blockio : BlockioState) (config : ContainerConfig)
    (sandboxConfig : PodSandboxConfig) : Except GoError String :=
  let containerName := config.metadataName
  let fc := scanQoSClass QoSResourceBlockio config.qosResources
  let clsE : Except GoError String :=
    if fc.1 then Except.ok fc.2
    else blockio.containerClassFromAnnotations containerName config.annotations
        sandboxConfig.annotations
  match clsE with
  | Except.error e => Except.error e
  | Except.ok cls =>
    if cls == "" then Except.ok cls
    else if !blockio.enabled then Except.error (GoError.blockioDisabled containerName cls)
    else if !(blockio.classes.contains cls) then
      Except.error (GoError.blockioUnknownClass cls)
    else Except.ok cls

/-- The request-validation loop of generateSandboxQoSResourceSpecOpts (NRI
variant): "net" is skipped by the switch, every other name is looked up in
dummyPodQoSResources with a class membership check, and after the switch an
empty class is rejected. -/
def validateSandboxRequests : List QoSRequest → Option GoError
  | [] => none
  | r :: rest =>
    let switchErr : Option GoError :=
      if r.name == QoSResourceNet then none
      else
        match dummyPodQoSResources.lookup r.name with
        | none => some (GoError.unknownPodQoSResourceType r.name)
        | some cs =>
          if !(cs.contains r.className) then
            some (GoError.unknownClass r.name r.className)
          else none
    match switchErr with
    | some e => some e
    | none =>
      if r.className == "" then some (GoError.emptyClassNotAllowed r.name)
      else validateSandboxRequests rest

/-- generateSandboxQoSResourceSpecOpts (NRI variant): validates the sandbox
requests and always returns an empty SpecOpts list on success. -/
def generateSandboxQoSResourceSpecOpts (config : PodSandboxConfig) :
    Except GoError (List SpecOpt) :=
  match validateSandboxRequests config.qosResources with
  | some e => Except.error e
  | none => Except.ok []

/-- generateCniQoSResourceOpts: the first request named "net" (the loop breaks
after it) is looked up in the cniQoSResource catalog (passed explicitly here in
place of the package-level variable); an absent class is an error, a present
class contributes a bandwidth namespace option only when BandWidth is non-nil. -/
def generateCniQoSResourceOpts (cniQoSResource : List (String × CniQoSClass))
    (config : PodSandboxConfig) : Except GoError (List CNINamespaceOpt) :=
  match config.qosResources.find? (fun r => r.name == QoSResourceNet) with
  | none => Except.ok []
  | some r =>
    match cniQoSResource.lookup r.className with
    | none => Except.error (GoError.unknownClass QoSResourceNet r.className)
    | some caps =>
      match caps.bandWidth with
      | some bw => Except.ok [CNINamespaceOpt.withCapabilityBandWidth bw]
      | none => Except.ok []

/-- The request-validation loop of generateContainerQoSResourceSpecOpts: rdt
and blockio are skipped by the switch (handled later, with annotation
fallback), every other name goes through the dummyContainerQoSResources
lookup, and after the switch an empty class is rejected. -/
def validateContainerRequests : List QoSRequest → Option GoError
  | [] => none
  | r :: rest =>
    let switchErr : Option GoError :=
      if r.name == QoSResourceRdt then none
      else if r.name == QoSResourceBlockio then none
      else
        match dummyContainerQoSResources.lookup r.name with
        | none => some (GoError.unknownQoSResourceType r.name)
        | some cs =>
          if !(cs.contains r.className) then
            some (GoError.unknownClass r.name r.className)
          else none
    match switchErr with
    | some e => some e
    | none =>
      if r.className == "" then some (GoError.emptyClassNotAllowed r.name)
      else validateContainerRequests rest

/-- generateContainerQoSResourceSpecOpts: validation loop, then the RDT
handler (its error is suppressed when the backend is disabled and the
IgnoreRdtNotEnabledErrors toggle is set), then the Block IO handler (same
suppression with its own toggle, plus the ClassNameToLinuxOCI conversion).
The RDT opt, when produced, always precedes the blockio opt. -/
def generateContainerQoSResourceSpecOpts (cfg : CriConfig) (rdt : RdtState)
    (blockio : BlockioState) (config : ContainerConfig)
    (sandboxConfig : PodSandboxConfig) : Except GoError (List SpecOpt) :=
  match validateContainerRequests config.qosResources with
  | some e => Except.error e
  | none =>
    let afterRdt : Except GoError (List SpecOpt) :=
      match getContainerRdtClass rdt config sandboxConfig with
      | Except.error e =>
        if !rdt.enabled && cfg.ignoreRdtNotEnabledErrors then Except.ok []
        else Except.error (GoError.failedRdt e)
      | Except.ok cls =>
        if cls != "" then Except.ok [SpecOpt.withRdt cls "" ""] else Except.ok []
    match afterRdt with
    | Except.error e => Except.error e
    | Except.ok opts =>
      match getContainerBlockioClass blockio config sandboxConfig with
      | Except.error e =>
        if !blockio.enabled && cfg.ignoreBlockIONotEnabledErrors then Except.ok opts
        else Except.error (GoError.failedBlockio e)
      | Except.ok cls =>
        if cls != "" then
          match blockio.classNameToLinuxOCI cls with
          | Except.ok b => Except.ok (opts ++ [SpecOpt.withBlockio b])
          | Except.error e => Except.error e
        else Except.ok opts

/-- One configured network of the CNI plugin: only Config.Source (the raw
configuration text) is read by the embedded code. -/
structure ConfNetwork where
  configSource : String

/-- The result of netplugin.GetConfig(): the ordered configured networks. -/
structure CNIConfigResult where
  networks : List ConfNetwork

/-- The anonymous struct that getCniQoSResources decodes the second network's
raw configuration into: a name and a qos class map. -/
structure CniQoSConfDoc where
  name : String
  qos : List (String × CniQoSClass)

/-- getCniQoSResources: nil plugin is a bug error; fewer than two configured
networks is a parse error; otherwise the second network's raw text is decoded
(json.Unmarshal modelled by the jsonDecode parameter) and its qos map
returned; decode failure carries the raw text and the underlying message. -/
def getCniQoSResources (jsonDecode : String → Except String CniQoSConfDoc)
    (netplugin : Option CNIConfigResult) :
    Except GoError (List (String × CniQoSClass)) :=
  match netplugin with
  | none => Except.error GoError.nilPlugin
  | some cniConfig =>
    match cniConfig.networks with
    | _ :: net1 :: _ =>
      match jsonDecode net1.configSource with
      | Except.error msg =>
        Except.error (GoError.cniConfigParseError net1.configSource msg)
      | Except.ok tmp => Except.ok tmp.qos
    | _ => Except.error GoError.cniConfigTooFewNetworks

/-- updateCniQoSResources: rebuild the catalog from the plugin configuration;
on success the package-level cniQoSResource is replaced wholesale, on error it
is left untouched.  The mutable variable is modelled by explicit state
passing: the result pairs the returned error with the new state. -/
def updateCniQoSResources (jsonDecode : String → Except String CniQoSConfDoc)
    (netplugin : Option CNIConfigResult)
    (cniQoSResource : List (String × CniQoSClass)) :
    Option GoError × List (String × CniQoSClass) :=
  match getCniQoSResources jsonDecode netplugin with
  | Except.error e => (some e, cniQoSResource)
  | Except.ok qos => (none, qos)

/-- Modelled from the spec: the NetworkDraftConfig of the Network Negotiation
Protocol (section 4.5) — port mappings, a bandwidth setting (the resolved
"net" class), CNI labels and DNS settings.  The AdjustPodSandboxNetwork
merge code is not among the shown source files. -/
structure NetworkDraftConfig where
  portMappings : List (Nat × Nat)
  bandwidth : String
  labels : List (String × String)
  dns : List String
deriving DecidableEq, Repr

/-- Modelled from the spec: the negotiation failure kind of section 7. -/
inductive NegotiationError where
  | negotiationRejected (cls : String)
deriving DecidableEq, Repr

/-- Modelled from the spec: the merge-and-re-validate step of the Network
Negotiation Protocol (section 4.5 step 3).  Every field the agent may change
(bandwidth, labels, DNS, port mappings) overwrites the draft's corresponding
field, and the merged bandwidth class is re-validated against the capability
catalog; a reply naming an unknown class is a negotiation failure, never a
fallback to the draft. -/
def mergeAdjustedNetworkConfig (catalog : List (String × CniQoSClass))
    (_draft reply : NetworkDraftConfig) : Except NegotiationError NetworkDraftConfig :=
  if (catalog.lookup reply.bandwidth).isSome then
    Except.ok
      { portMappings := reply.portMappings
        bandwidth := reply.bandwidth
        labels := reply.labels
        dns := reply.dns }
  else Except.error (NegotiationError.negotiationRejected reply.bandwidth)

/-- Folding the scan step over requests none of which matches the resource
name leaves the accumulator unchanged. -/
theorem scanQoSClass_foldl_no_match (resource : String) (ys : List QoSRequest)
    (acc : Bool × String) (h : ∀ r ∈ ys, (r.name == resource) = false) :
    ys.foldl
      (fun acc r => if r.name == resource then (true, r.className) else acc)
      acc = acc := by
  induction ys generalizing acc with
  | nil => rfl
  | cons y ys ih =>
    have hy : (y.name == resource) = false := h y (List.mem_cons_self y ys)
    simp only [List.foldl_cons, hy, if_false]
    exact ih acc (fun r hr => h r (List.mem_cons_of_mem y hr))

/-- The scan records the class of the last matching request: requests after
the last match leave the accumulator alone, requests before it are
overwritten. -/
theorem scanQoSClass_last_match (resource c : String) (xs ys : List QoSRequest)
    (h : ∀ r ∈ ys, (r.name == resource) = false) :
    scanQoSClass resource (xs ++ { name := resource, className := c } :: ys)
      = (true, c) := by
  unfold scanQoSClass
  rw [List.foldl_append, List.foldl_cons]
  simp only [beq_self_eq_true, if_true]
  exact scanQoSClass_foldl_no_match resource ys _ h

/-- A fallback function modelling absent rdt/blockio annotations: it yields
the empty class and no error. -/
def annotNone :
    String → List (String × String) → List (String × String) → Except GoError String :=
  fun _ _ _ => Except.ok ""

/-- A fallback function modelling annotations that name the class "silver". -/
def annotSilver :
    String → List (String × String) → List (String × String) → Except GoError String :=
  fun _ _ _ => Except.ok "silver"

/-- A ClassNameToLinuxOCI model that always succeeds with a fixed value. -/
def toLinuxZero : String → Except GoError LinuxBlockioSpec :=
  fun _ => Except.ok { tag := 0 }

/-- C1: the annotation fallback is consulted only when no structured request
names the resource type — when the scan finds a structured rdt (resp. blockio)
request, the result does not depend on the annotation fallback at all, and a
structured class wins over any annotation-derived class ("gold" over
"silver"); when the scan finds nothing the fallback is consulted (its error
surfaces). -/
theorem c1_structured_request_takes_precedence :
    (∀ (en : Bool) (cs : List String)
       (f g : String → List (String × String) → List (String × String) →
         Except GoError String)
       (config : ContainerConfig) (sb : PodSandboxConfig),
       (scanQoSClass QoSResourceRdt config.qosResources).1 = true →
       getContainerRdtClass ⟨en, cs, f⟩ config sb
         = getContainerRdtClass ⟨en, cs, g⟩ config sb)
  ∧ (∀ (en : Bool) (cs : List String)
       (f g : String → List (String × String) → List (String × String) →
         Except GoError String)
       (t : String → Except GoError LinuxBlockioSpec)
       (config : ContainerConfig) (sb : PodSandboxConfig),
       (scanQoSClass QoSResourceBlockio config.qosResources).1 = true →
       getContainerBlockioClass ⟨en, cs, f, t⟩ config sb
         = getContainerBlockioClass ⟨en, cs, g, t⟩ config sb)
  ∧ (∀ (cs : List String)
       (f : String → List (String × String) → List (String × String) →
         Except GoError String)
       (nm : String) (annots sannots : List (String × String))
       (sreqs : List QoSRequest),
       cs.contains "gold" = true →
       getContainerRdtClass ⟨true, cs, f⟩
           ⟨nm, [{ name := QoSResourceRdt, className := "gold" }], annots⟩
           ⟨sreqs, sannots⟩
         = Except.ok "gold")
  ∧ (∀ (config : ContainerConfig) (sb : PodSandboxConfig)
       (en : Bool) (cs : List String)
       (f : String → List (String × String) → List (String × String) →
         Except GoError String) (e : GoError),
       (scanQoSClass QoSResourceRdt config.qosResources).1 = false →
       f config.metadataName config.annotations sb.annotations = Except.error e →
       getContainerRdtClass ⟨en, cs, f⟩ config sb = Except.error e) := by
  refine ⟨?_, ?_, ?_, ?_⟩
  · intro en cs f g config sb h
    simp only [getContainerRdtClass, h, if_true]
  · intro en cs f g t config sb h
    simp only [getContainerBlockioClass, h, if_true]
  · intro cs f nm annots sannots sreqs h
    simp [getContainerRdtClass, scanQoSClass, QoSResourceRdt]
    simpa using h
  · intro config sb en cs f e hscan hf
    simp only [getContainerRdtClass, hscan, Bool.false_eq_true, if_false, hf]

/-- C1 witness: with the rdt backend enabled and classes gold and silver, a
container config carrying a structured rdt request for "gold" resolves to
"gold" whether the annotations say "silver" or error out, and a config with
no structured request surfaces the fallback's error. -/
theorem c1_witness :
    (getContainerRdtClass ⟨true, ["gold", "silver"], annotSilver⟩
        ⟨"c", [{ name := QoSResourceRdt, className := "gold" }], []⟩ ⟨[], []⟩
      = getContainerRdtClass
          ⟨true, ["gold", "silver"],
            fun _ _ _ => Except.error (GoError.annotationsError "boom")⟩
          ⟨"c", [{ name := QoSResourceRdt, className := "gold" }], []⟩ ⟨[], []⟩)
  ∧ (getContainerBlockioClass ⟨true, ["gold"], annotSilver, toLinuxZero⟩
        ⟨"c", [{ name := QoSResourceBlockio, className := "gold" }], []⟩ ⟨[], []⟩
      = getContainerBlockioClass ⟨true, ["gold"], annotNone, toLinuxZero⟩
          ⟨"c", [{ name := QoSResourceBlockio, className := "gold" }], []⟩ ⟨[], []⟩)
  ∧ (getContainerRdtClass ⟨true, ["gold", "silver"], annotSilver⟩
        ⟨"c", [{ name := QoSResourceRdt, className := "gold" }], []⟩ ⟨[], []⟩
      = Except.ok "gold")
  ∧ (getContainerRdtClass
        ⟨true, ["gold"], fun _ _ _ => Except.error (GoError.annotationsError "boom")⟩
        ⟨"c", [], []⟩ ⟨[], []⟩
      = Except.error (GoError.annotationsError "boom")) := by
  refine ⟨?_, ?_, ?_, ?_⟩
  · exact c1_structured_request_takes_precedence.1 true ["gold", "silver"] annotSilver
      (fun _ _ _ => Except.error (GoError.annotationsError "boom"))
      ⟨"c", [{ name := QoSResourceRdt, className := "gold" }], []⟩ ⟨[], []⟩ (by decide)
  · exact c1_structured_request_takes_precedence.2.1 true ["gold"] annotSilver annotNone
      toLinuxZero
      ⟨"c", [{ name := QoSResourceBlockio, className := "gold" }], []⟩ ⟨[], []⟩ (by decide)
  · exact c1_structured_request_takes_precedence.2.2.1 ["gold", "silver"] annotSilver
      "c" [] [] [] (by decide)
  · exact c1_structured_request_takes_precedence.2.2.2
      ⟨"c", [], []⟩ ⟨[], []⟩ true ["gold"]
      (fun _ _ _ => Except.error (GoError.annotationsError "boom"))
      (GoError.annotationsError "boom") (by decide) rfl

/-- C2 counterexample: a container request for the catalog-backed type
"dummy-1" with an empty class string does not produce the
empty-class-not-allowed error — the catalog membership check of the switch
runs first and reports an unknown class instead. -/
theorem c2_counterexample :
    generateContainerQoSResourceSpecOpts ⟨false, false⟩
        ⟨true, [], annotNone⟩ ⟨true, [], annotNone, toLinuxZero⟩
        ⟨"ctr", [{ name := "dummy-1", className := "" }], []⟩ ⟨[], []⟩
      = Except.error (GoError.unknownClass "dummy-1" "")
    ∧ GoError.unknownClass "dummy-1" "" ≠ GoError.emptyClassNotAllowed "dummy-1" := by
  exact ⟨rfl, by simp⟩

/-- C2 (amended): an empty class string yields the EmptyClassNotAllowed error
for the resource types with dedicated handling — rdt and blockio on container
configs and net on sandbox configs, whose switch cases skip the catalog
check — while for the generic catalog-backed types the catalog membership
check precedes the empty-class check, so an empty class (absent from the
catalog) yields the unknown-class error instead. -/
theorem c2_empty_class_resolution :
    (∀ (cfg : CriConfig) (rdt : RdtState) (blockio : BlockioState)
       (nm : String) (annots : List (String × String)) (sb : PodSandboxConfig)
       (name : String),
       name = QoSResourceRdt ∨ name = QoSResourceBlockio →
       generateContainerQoSResourceSpecOpts cfg rdt blockio
           ⟨nm, [{ name := name, className := "" }], annots⟩ sb
         = Except.error (GoError.emptyClassNotAllowed name))
  ∧ (∀ (sannots : List (String × String)),
       generateSandboxQoSResourceSpecOpts
           ⟨[{ name := QoSResourceNet, className := "" }], sannots⟩
         = Except.error (GoError.emptyClassNotAllowed QoSResourceNet))
  ∧ (∀ (cfg : CriConfig) (rdt : RdtState) (blockio : BlockioState)
       (nm name : String) (cs : List String) (annots : List (String × String))
       (sb : PodSandboxConfig),
       (name == QoSResourceRdt) = false →
       (name == QoSResourceBlockio) = false →
       dummyContainerQoSResources.lookup name = some cs →
       cs.contains "" = false →
       generateContainerQoSResourceSpecOpts cfg rdt blockio
           ⟨nm, [{ name := name, className := "" }], annots⟩ sb
         = Except.error (GoError.unknownClass name "")) := by
  refine ⟨?_, ?_, ?_⟩
  · rintro cfg rdt blockio nm annots sb name (rfl | rfl) <;> rfl
  · intro sannots
    rfl
  · intro cfg rdt blockio nm name cs annots sb h1 h2 hlook hcont
    have h3 : ¬ ("" ∈ cs) := by simpa using hcont
    simp [generateContainerQoSResourceSpecOpts, validateContainerRequests,
      h1, h2, hlook, h3]

/-- C2 witness: concrete instances of the three amended cases — an rdt
request with empty class, a sandbox net request with empty class, and a
"dummy-2" request with empty class. -/
theorem c2_witness :
    generateContainerQoSResourceSpecOpts ⟨false, false⟩
        ⟨true, [], annotNone⟩ ⟨true, [], annotNone, toLinuxZero⟩
        ⟨"c", [{ name := QoSResourceRdt, className := "" }], []⟩ ⟨[], []⟩
      = Except.error (GoError.emptyClassNotAllowed QoSResourceRdt)
    ∧ generateSandboxQoSResourceSpecOpts
        ⟨[{ name := QoSResourceNet, className := "" }], []⟩
      = Except.error (GoError.emptyClassNotAllowed QoSResourceNet)
    ∧ generateContainerQoSResourceSpecOpts ⟨false, false⟩
        ⟨true, [], annotNone⟩ ⟨true, [], annotNone, toLinuxZero⟩
        ⟨"c", [{ name := "dummy-2", className := "" }], []⟩ ⟨[], []⟩
      = Except.error (GoError.unknownClass "dummy-2" "") := by
  refine ⟨?_, ?_, ?_⟩
  · exact c2_empty_class_resolution.1 ⟨false, false⟩ ⟨true, [], annotNone⟩
      ⟨true, [], annotNone, toLinuxZero⟩ "c" [] ⟨[], []⟩ QoSResourceRdt (Or.inl rfl)
  · exact c2_empty_class_resolution.2.1 []
  · exact c2_empty_class_resolution.2.2 ⟨false, false⟩ ⟨true, [], annotNone⟩
      ⟨true, [], annotNone, toLinuxZero⟩ "c" "dummy-2"
      ["platinum", "gold", "silver", "bronze"] [] ⟨[], []⟩
      (by decide) (by decide) rfl (by decide)

/-- C9: generateContainerQoSResourceSpecOpts is a pure function of the
configs, the criService toggles, the backend states and the (explicitly
passed) catalogs, so two runs on the same inputs produce identical ordered
mutation sequences. -/
theorem c9_deterministic_mutation_generation :
    ∀ (cfg : CriConfig) (rdt : RdtState) (blockio : BlockioState)
      (config : ContainerConfig) (sb : PodSandboxConfig),
      generateContainerQoSResourceSpecOpts cfg rdt blockio config sb
        = generateContainerQoSResourceSpecOpts cfg rdt blockio config sb :=
  fun _ _ _ _ _ => rfl

/-- C10: the scan loop records every matching request without stopping, so
with several requests naming the same resource type the last one in scan
order wins, for rdt and for blockio alike. -/
theorem c10_last_duplicate_request_wins :
    (∀ (rdt : RdtState) (xs ys : List QoSRequest) (c nm : String)
       (annots : List (String × String)) (sb : PodSandboxConfig),
       (∀ r ∈ ys, (r.name == QoSResourceRdt) = false) →
       rdt.enabled = true → rdt.classes.contains c = true → c ≠ "" →
       getContainerRdtClass rdt
           ⟨nm, xs ++ { name := QoSResourceRdt, className := c } :: ys, annots⟩ sb
         = Except.ok c)
  ∧ (∀ (blockio : BlockioState) (xs ys : List QoSRequest) (c nm : String)
       (annots : List (String × String)) (sb : PodSandboxConfig),
       (∀ r ∈ ys, (r.name == QoSResourceBlockio) = false) →
       blockio.enabled = true → blockio.classes.contains c = true → c ≠ "" →
       getContainerBlockioClass blockio
           ⟨nm, xs ++ { name := QoSResourceBlockio, className := c } :: ys, annots⟩ sb
         = Except.ok c) := by
  constructor
  · intro rdt xs ys c nm annots sb hys hen hcont hne
    have hscan := scanQoSClass_last_match QoSResourceRdt c xs ys hys
    simp [getContainerRdtClass, hscan, hen, hcont, hne]
    simpa using hcont
  · intro blockio xs ys c nm annots sb hys hen hcont hne
    have hscan := scanQoSClass_last_match QoSResourceBlockio c xs ys hys
    simp [getContainerBlockioClass, hscan, hen, hcont, hne]
    simpa using hcont

/-- C10 witness: two rdt requests "a" then "b" resolve to "b", and two
blockio requests "x" then "y" resolve to "y". -/
theorem c10_witness :
    getContainerRdtClass ⟨true, ["a", "b"], annotNone⟩
        ⟨"c", [{ name := QoSResourceRdt, className := "a" },
               { name := QoSResourceRdt, className := "b" }], []⟩ ⟨[], []⟩
      = Except.ok "b"
    ∧ getContainerBlockioClass ⟨true, ["x", "y"], annotNone, toLinuxZero⟩
        ⟨"c", [{ name := QoSResourceBlockio, className := "x" },
               { name := QoSResourceBlockio, className := "y" }], []⟩ ⟨[], []⟩
      = Except.ok "y" := by
  constructor
  · exact c10_last_duplicate_request_wins.1 ⟨true, ["a", "b"], annotNone⟩
      [{ name := QoSResourceRdt, className := "a" }] [] "b" "c" [] ⟨[], []⟩
      (by intro r hr; cases hr) rfl (by decide) (by decide)
  · exact c10_last_duplicate_request_wins.2 ⟨true, ["x", "y"], annotNone, toLinuxZero⟩
      [{ name := QoSResourceBlockio, className := "x" }] [] "y" "c" [] ⟨[], []⟩
      (by intro r hr; cases hr) rfl (by decide) (by decide)

/-- C3 counterexample: a container config with no QoS request at all still
yields one RDT mutation when the annotation fallback names an enabled,
existing class — an absent structured request does not guarantee zero
mutations for that type. -/
theorem c3_counterexample :
    generateContainerQoSResourceSpecOpts ⟨false, false⟩
        ⟨true, ["gold"], fun _ _ _ => Except.ok "gold"⟩
        ⟨true, [], annotNone, toLinuxZero⟩
        ⟨"ctr", [], []⟩ ⟨[], []⟩
      = Except.ok [SpecOpt.withRdt "gold" "" ""]
    ∧ (Except.ok [SpecOpt.withRdt "gold" "" ""] : Except GoError (List SpecOpt))
        ≠ Except.ok [] := by
  exact ⟨rfl, by simp⟩

/-- C3 (amended): a structured request whose class exists in the backend's
catalog with the backend enabled yields exactly one mutation carrying that
class (the rdt opt, or the blockio opt obtained by converting the class),
provided the rest of the config passes validation and the other backend
resolves to no class; and a config whose requests pass validation and whose
rdt and blockio resolution — structured requests and annotation fallback
alike — yields the empty class produces zero mutations and no error. -/
theorem c3_single_mutation_per_resolved_class :
    (∀ (cfg : CriConfig) (rdt : RdtState) (blockio : BlockioState)
       (config : ContainerConfig) (sb : PodSandboxConfig) (cls : String),
       validateContainerRequests config.qosResources = none →
       scanQoSClass QoSResourceRdt config.qosResources = (true, cls) →
       cls ≠ "" → rdt.enabled = true → rdt.classes.contains cls = true →
       getContainerBlockioClass blockio config sb = Except.ok "" →
       generateContainerQoSResourceSpecOpts cfg rdt blockio config sb
         = Except.ok [SpecOpt.withRdt cls "" ""])
  ∧ (∀ (cfg : CriConfig) (rdt : RdtState) (blockio : BlockioState)
       (config : ContainerConfig) (sb : PodSandboxConfig) (cls : String)
       (b : LinuxBlockioSpec),
       validateContainerRequests config.qosResources = none →
       getContainerRdtClass rdt config sb = Except.ok "" →
       scanQoSClass QoSResourceBlockio config.qosResources = (true, cls) →
       cls ≠ "" → blockio.enabled = true → blockio.classes.contains cls = true →
       blockio.classNameToLinuxOCI cls = Except.ok b →
       generateContainerQoSResourceSpecOpts cfg rdt blockio config sb
         = Except.ok [SpecOpt.withBlockio b])
  ∧ (∀ (cfg : CriConfig) (rdt : RdtState) (blockio : BlockioState)
       (config : ContainerConfig) (sb : PodSandboxConfig),
       validateContainerRequests config.qosResources = none →
       getContainerRdtClass rdt config sb = Except.ok "" →
       getContainerBlockioClass blockio config sb = Except.ok "" →
       generateContainerQoSResourceSpecOpts cfg rdt blockio config sb
         = Except.ok []) := by
  refine ⟨?_, ?_, ?_⟩
  · intro cfg rdt blockio config sb cls hv hscan hne hen hcont hbio
    have hrdt : getContainerRdtClass rdt config sb = Except.ok cls := by
      simp [getContainerRdtClass, hscan, hne, hen]
      simpa using hcont
    simp [generateContainerQoSResourceSpecOpts, hv, hrdt, hbio, hne]
  · intro cfg rdt blockio config sb cls b hv hrdt hscan hne hen hcont htol
    have hbio : getContainerBlockioClass blockio config sb = Except.ok cls := by
      simp [getContainerBlockioClass, hscan, hne, hen]
      simpa using hcont
    simp [generateContainerQoSResourceSpecOpts, hv, hrdt, hbio, hne, htol]
  · intro cfg rdt blockio config sb hv hrdt hbio
    simp [generateContainerQoSResourceSpecOpts, hv, hrdt, hbio]

/-- C3 witness: a lone rdt request for "gold" yields exactly the rdt opt, a
lone blockio request for "fast" yields exactly the converted blockio opt, and
a requestless config with empty fallbacks yields no opts. -/
theorem c3_witness :
    generateContainerQoSResourceSpecOpts ⟨false, false⟩
        ⟨true, ["gold"], annotNone⟩ ⟨true, [], annotNone, toLinuxZero⟩
        ⟨"c", [{ name := QoSResourceRdt, className := "gold" }], []⟩ ⟨[], []⟩
      = Except.ok [SpecOpt.withRdt "gold" "" ""]
    ∧ generateContainerQoSResourceSpecOpts ⟨false, false⟩
        ⟨true, [], annotNone⟩ ⟨true, ["fast"], annotNone, toLinuxZero⟩
        ⟨"c", [{ name := QoSResourceBlockio, className := "fast" }], []⟩ ⟨[], []⟩
      = Except.ok [SpecOpt.withBlockio { tag := 0 }]
    ∧ generateContainerQoSResourceSpecOpts ⟨false, false⟩
        ⟨true, ["gold"], annotNone⟩ ⟨true, ["fast"], annotNone, toLinuxZero⟩
        ⟨"c", [], []⟩ ⟨[], []⟩
      = Except.ok [] := by
  refine ⟨?_, ?_, ?_⟩
  · exact c3_single_mutation_per_resolved_class.1 ⟨false, false⟩
      ⟨true, ["gold"], annotNone⟩ ⟨true, [], annotNone, toLinuxZero⟩
      ⟨"c", [{ name := QoSResourceRdt, className := "gold" }], []⟩ ⟨[], []⟩ "gold"
      rfl rfl (by decide) rfl (by decide) rfl
  · exact c3_single_mutation_per_resolved_class.2.1 ⟨false, false⟩
      ⟨true, [], annotNone⟩ ⟨true, ["fast"], annotNone, toLinuxZero⟩
      ⟨"c", [{ name := QoSResourceBlockio, className := "fast" }], []⟩ ⟨[], []⟩
      "fast" { tag := 0 } rfl rfl rfl (by decide) rfl (by decide) rfl
  · exact c3_single_mutation_per_resolved_class.2.2 ⟨false, false⟩
      ⟨true, ["gold"], annotNone⟩ ⟨true, ["fast"], annotNone, toLinuxZero⟩
      ⟨"c", [], []⟩ ⟨[], []⟩ rfl rfl rfl

/-- C4: a request for a class absent from the backend catalog while the
backend is enabled fails with the unknown-class error even when the
corresponding ignore-not-enabled toggle is set (the toggle's condition also
requires the backend to be disabled), for rdt and blockio alike; the toggle
does suppress the error taken when the backend reports not enabled. -/
theorem c4_unknown_class_never_soft_ignored :
    (∀ (cfg : CriConfig) (rdt : RdtState) (blockio : BlockioState)
       (config : ContainerConfig) (sb : PodSandboxConfig) (cls : String),
       cfg.ignoreRdtNotEnabledErrors = true →
       validateContainerRequests config.qosResources = none →
       scanQoSClass QoSResourceRdt config.qosResources = (true, cls) →
       cls ≠ "" → rdt.enabled = true → rdt.classes.contains cls = false →
       generateContainerQoSResourceSpecOpts cfg rdt blockio config sb
         = Except.error (GoError.failedRdt (GoError.rdtUnknownClass cls)))
  ∧ (∀ (cfg : CriConfig) (rdt : RdtState) (blockio : BlockioState)
       (config : ContainerConfig) (sb : PodSandboxConfig) (cls : String),
       cfg.ignoreBlockIONotEnabledErrors = true →
       validateContainerRequests config.qosResources = none →
       getContainerRdtClass rdt config sb = Except.ok "" →
       scanQoSClass QoSResourceBlockio config.qosResources = (true, cls) →
       cls ≠ "" → blockio.enabled = true → blockio.classes.contains cls = false →
       generateContainerQoSResourceSpecOpts cfg rdt blockio config sb
         = Except.error (GoError.failedBlockio (GoError.blockioUnknownClass cls)))
  ∧ (∀ (cfg : CriConfig) (rdt : RdtState) (blockio : BlockioState)
       (config : ContainerConfig) (sb : PodSandboxConfig) (cls : String),
       cfg.ignoreRdtNotEnabledErrors = true →
       validateContainerRequests config.qosResources = none →
       scanQoSClass QoSResourceRdt config.qosResources = (true, cls) →
       cls ≠ "" → rdt.enabled = false →
       getContainerBlockioClass blockio config sb = Except.ok "" →
       generateContainerQoSResourceSpecOpts cfg rdt blockio config sb
         = Except.ok []) := by
  refine ⟨?_, ?_, ?_⟩
  · intro cfg rdt blockio config sb cls hig hv hscan hne hen hcont
    have h3 : ¬ (cls ∈ rdt.classes) := by simpa using hcont
    have hrdt : getContainerRdtClass rdt config sb
        = Except.error (GoError.rdtUnknownClass cls) := by
      simp [getContainerRdtClass, hscan, hne, hen, h3]
    simp [generateContainerQoSResourceSpecOpts, hv, hrdt, hen]
  · intro cfg rdt blockio config sb cls hig hv hrdt hscan hne hen hcont
    have h3 : ¬ (cls ∈ blockio.classes) := by simpa using hcont
    have hbio : getContainerBlockioClass blockio config sb
        = Except.error (GoError.blockioUnknownClass cls) := by
      simp [getContainerBlockioClass, hscan, hne, hen, h3]
    simp [generateContainerQoSResourceSpecOpts, hv, hrdt, hbio, hen]
  · intro cfg rdt blockio config sb cls hig hv hscan hne hen hbio
    have hrdt : getContainerRdtClass rdt config sb
        = Except.error (GoError.rdtDisabled config.metadataName cls) := by
      simp [getContainerRdtClass, hscan, hne, hen]
    simp [generateContainerQoSResourceSpecOpts, hv, hrdt, hen, hig, hbio]

/-- C4 witness: with the ignore toggles set, an enabled rdt (resp. blockio)
backend still rejects the unknown class "nope", while a disabled rdt backend
with the toggle set is skipped. -/
theorem c4_witness :
    generateContainerQoSResourceSpecOpts ⟨true, true⟩
        ⟨true, ["gold"], annotNone⟩ ⟨true, [], annotNone, toLinuxZero⟩
        ⟨"c", [{ name := QoSResourceRdt, className := "nope" }], []⟩ ⟨[], []⟩
      = Except.error (GoError.failedRdt (GoError.rdtUnknownClass "nope"))
    ∧ generateContainerQoSResourceSpecOpts ⟨true, true⟩
        ⟨true, [], annotNone⟩ ⟨true, ["fast"], annotNone, toLinuxZero⟩
        ⟨"c", [{ name := QoSResourceBlockio, className := "nope" }], []⟩ ⟨[], []⟩
      = Except.error (GoError.failedBlockio (GoError.blockioUnknownClass "nope"))
    ∧ generateContainerQoSResourceSpecOpts ⟨true, true⟩
        ⟨false, ["gold"], annotNone⟩ ⟨true, [], annotNone, toLinuxZero⟩
        ⟨"c", [{ name := QoSResourceRdt, className := "gold" }], []⟩ ⟨[], []⟩
      = Except.ok [] := by
  refine ⟨?_, ?_, ?_⟩
  · exact c4_unknown_class_never_soft_ignored.1 ⟨true, true⟩
      ⟨true, ["gold"], annotNone⟩ ⟨true, [], annotNone, toLinuxZero⟩
      ⟨"c", [{ name := QoSResourceRdt, className := "nope" }], []⟩ ⟨[], []⟩ "nope"
      rfl rfl rfl (by decide) rfl (by decide)
  · exact c4_unknown_class_never_soft_ignored.2.1 ⟨true, true⟩
      ⟨true, [], annotNone⟩ ⟨true, ["fast"], annotNone, toLinuxZero⟩
      ⟨"c", [{ name := QoSResourceBlockio, className := "nope" }], []⟩ ⟨[], []⟩
      "nope" rfl rfl rfl rfl (by decide) rfl (by decide)
  · exact c4_unknown_class_never_soft_ignored.2.2 ⟨true, true⟩
      ⟨false, ["gold"], annotNone⟩ ⟨true, [], annotNone, toLinuxZero⟩
      ⟨"c", [{ name := QoSResourceRdt, className := "gold" }], []⟩ ⟨[], []⟩ "gold"
      rfl rfl rfl (by decide) rfl rfl

/-- C5: catalog rebuild via updateCniQoSResources fails and leaves the stored
net class catalog untouched when the plugin exposes fewer than two configured
networks, and likewise when the second network's raw text fails to decode
(the error carrying the raw text and the decoder's message); a nil plugin is
also rejected without touching the catalog. -/
theorem c5_failed_rebuild_keeps_catalog :
    (∀ (jsonDecode : String → Except String CniQoSConfDoc)
       (st : List (String × CniQoSClass)) (cfgNet : CNIConfigResult),
       cfgNet.networks.length < 2 →
       updateCniQoSResources jsonDecode (some cfgNet) st
         = (some GoError.cniConfigTooFewNetworks, st))
  ∧ (∀ (jsonDecode : String → Except String CniQoSConfDoc)
       (st : List (String × CniQoSClass)) (cfgNet : CNIConfigResult)
       (n0 n1 : ConfNetwork) (rest : List ConfNetwork) (msg : String),
       cfgNet.networks = n0 :: n1 :: rest →
       jsonDecode n1.configSource = Except.error msg →
       updateCniQoSResources jsonDecode (some cfgNet) st
         = (some (GoError.cniConfigParseError n1.configSource msg), st))
  ∧ (∀ (jsonDecode : String → Except String CniQoSConfDoc)
       (st : List (String × CniQoSClass)),
       updateCniQoSResources jsonDecode none st = (some GoError.nilPlugin, st)) := by
  refine ⟨?_, ?_, ?_⟩
  · intro jsonDecode st cfgNet hlen
    obtain ⟨nets⟩ := cfgNet
    match nets with
    | [] => rfl
    | [n] => rfl
    | a :: b :: t => simp at hlen; omega
  · intro jsonDecode st cfgNet n0 n1 rest msg hnet hdec
    simp [updateCniQoSResources, getCniQoSResources, hnet, hdec]
  · intro jsonDecode st
    rfl

/-- C5 witness: a single-network configuration and a two-network
configuration whose second raw text fails to decode both leave the stored
catalog ["gold" with capacity 1] unchanged. -/
theorem c5_witness :
    updateCniQoSResources (fun _ => Except.error "eof") (some ⟨[⟨"net0"⟩]⟩)
        [("gold", { capacity := 1, bandWidth := none })]
      = (some GoError.cniConfigTooFewNetworks,
         [("gold", { capacity := 1, bandWidth := none })])
    ∧ updateCniQoSResources (fun _ => Except.error "eof")
        (some ⟨[⟨"net0"⟩, ⟨"badjson"⟩]⟩)
        [("gold", { capacity := 1, bandWidth := none })]
      = (some (GoError.cniConfigParseError "badjson" "eof"),
         [("gold", { capacity := 1, bandWidth := none })]) := by
  constructor
  · exact c5_failed_rebuild_keeps_catalog.1 (fun _ => Except.error "eof")
      [("gold", { capacity := 1, bandWidth := none })] ⟨[⟨"net0"⟩]⟩ (by decide)
  · exact c5_failed_rebuild_keeps_catalog.2.1 (fun _ => Except.error "eof")
      [("gold", { capacity := 1, bandWidth := none })] ⟨[⟨"net0"⟩, ⟨"badjson"⟩]⟩
      ⟨"net0"⟩ ⟨"badjson"⟩ [] "eof" rfl rfl

/-- C6 counterexample: with the blockio request listed before the rdt request
on the config, the generated mutations still carry the rdt opt first — the
handlers run in a fixed order, not in request-scan order. -/
theorem c6_counterexample :
    generateContainerQoSResourceSpecOpts ⟨false, false⟩
        ⟨true, ["r"], annotNone⟩ ⟨true, ["b"], annotNone, toLinuxZero⟩
        ⟨"ctr", [{ name := QoSResourceBlockio, className := "b" },
                 { name := QoSResourceRdt, className := "r" }], []⟩ ⟨[], []⟩
      = Except.ok [SpecOpt.withRdt "r" "" "", SpecOpt.withBlockio { tag := 0 }]
    ∧ ([{ name := QoSResourceBlockio, className := "b" },
         { name := QoSResourceRdt, className := "r" }] : List QoSRequest).map
          (fun r => r.name)
      = [QoSResourceBlockio, QoSResourceRdt]
    ∧ (Except.ok [SpecOpt.withRdt "r" "" "", SpecOpt.withBlockio { tag := 0 }]
        : Except GoError (List SpecOpt))
      ≠ Except.ok [SpecOpt.withBlockio { tag := 0 }, SpecOpt.withRdt "r" "" ""] := by
  refine ⟨rfl, rfl, by simp⟩

/-- C6 (amended): when both classes resolve, the mutations appear in a fixed
stable order — the rdt opt first, then the blockio opt — regardless of the
relative order of the rdt and blockio requests on the config. -/
theorem c6_fixed_mutation_order :
    ∀ (cfg : CriConfig) (rdt : RdtState) (blockio : BlockioState)
      (config : ContainerConfig) (sb : PodSandboxConfig) (rc bc : String)
      (b : LinuxBlockioSpec),
      validateContainerRequests config.qosResources = none →
      scanQoSClass QoSResourceRdt config.qosResources = (true, rc) →
      rc ≠ "" → rdt.enabled = true → rdt.classes.contains rc = true →
      scanQoSClass QoSResourceBlockio config.qosResources = (true, bc) →
      bc ≠ "" → blockio.enabled = true → blockio.classes.contains bc = true →
      blockio.classNameToLinuxOCI bc = Except.ok b →
      generateContainerQoSResourceSpecOpts cfg rdt blockio config sb
        = Except.ok [SpecOpt.withRdt rc "" "", SpecOpt.withBlockio b] := by
  intro cfg rdt blockio config sb rc bc b hv hscanr hner henr hcontr hscanb hneb
    henb hcontb htol
  have hrdt : getContainerRdtClass rdt config sb = Except.ok rc := by
    simp [getContainerRdtClass, hscanr, hner, henr]
    simpa using hcontr
  have hbio : getContainerBlockioClass blockio config sb = Except.ok bc := by
    simp [getContainerBlockioClass, hscanb, hneb, henb]
    simpa using hcontb
  simp [generateContainerQoSResourceSpecOpts, hv, hrdt, hbio, hner, hneb, htol]

/-- C6 witness: the blockio-before-rdt config resolves to the rdt opt
followed by the blockio opt. -/
theorem c6_witness :
    generateContainerQoSResourceSpecOpts ⟨false, false⟩
        ⟨true, ["r"], annotNone⟩ ⟨true, ["b"], annotNone, toLinuxZero⟩
        ⟨"c", [{ name := QoSResourceBlockio, className := "b" },
               { name := QoSResourceRdt, className := "r" }], []⟩ ⟨[], []⟩
      = Except.ok [SpecOpt.withRdt "r" "" "", SpecOpt.withBlockio { tag := 0 }] :=
  c6_fixed_mutation_order ⟨false, false⟩
    ⟨true, ["r"], annotNone⟩ ⟨true, ["b"], annotNone, toLinuxZero⟩
    ⟨"c", [{ name := QoSResourceBlockio, className := "b" },
           { name := QoSResourceRdt, className := "r" }], []⟩ ⟨[], []⟩
    "r" "b" { tag := 0 }
    rfl rfl (by decide) rfl (by decide) rfl (by decide) rfl (by decide) rfl

/-- C7 counterexample: a net class present in the catalog whose entry carries
no bandwidth parameters (a nil BandWidth pointer) yields no namespace option
at all — presence in the catalog alone does not guarantee a bandwidth
namespace option. -/
theorem c7_counterexample :
    (([("gold", { capacity := 5, bandWidth := none })]
        : List (String × CniQoSClass)).lookup "gold").isSome = true
    ∧ generateCniQoSResourceOpts [("gold", { capacity := 5, bandWidth := none })]
        ⟨[{ name := QoSResourceNet, className := "gold" }], []⟩
      = Except.ok [] := by
  exact ⟨rfl, rfl⟩

/-- C7 (amended): the net class of a sandbox is resolved by direct catalog
lookup of the first net request, independent of annotations: a class present
in the catalog yields a sandbox-level bandwidth namespace option exactly when
its entry carries bandwidth parameters (and no option otherwise), never a
container-level spec-opt mutation (the sandbox spec-opt generator emits
nothing for net); a class absent from the catalog makes
generateCniQoSResourceOpts fail with the unknown-class error. -/
theorem c7_net_class_catalog_lookup :
    (∀ (catalog : List (String × CniQoSClass)) (config : PodSandboxConfig)
       (r : QoSRequest) (cap : Nat) (bw : BandWidth),
       config.qosResources.find? (fun q => q.name == QoSResourceNet) = some r →
       catalog.lookup r.className = some { capacity := cap, bandWidth := some bw } →
       generateCniQoSResourceOpts catalog config
         = Except.ok [CNINamespaceOpt.withCapabilityBandWidth bw])
  ∧ (∀ (catalog : List (String × CniQoSClass)) (config : PodSandboxConfig)
       (r : QoSRequest) (cap : Nat),
       config.qosResources.find? (fun q => q.name == QoSResourceNet) = some r →
       catalog.lookup r.className = some { capacity := cap, bandWidth := none } →
       generateCniQoSResourceOpts catalog config = Except.ok [])
  ∧ (∀ (catalog : List (String × CniQoSClass)) (config : PodSandboxConfig)
       (r : QoSRequest),
       config.qosResources.find? (fun q => q.name == QoSResourceNet) = some r →
       catalog.lookup r.className = none →
       generateCniQoSResourceOpts catalog config
         = Except.error (GoError.unknownClass QoSResourceNet r.className))
  ∧ (∀ (cls : String) (sannots : List (String × String)),
       cls ≠ "" →
       generateSandboxQoSResourceSpecOpts
           ⟨[{ name := QoSResourceNet, className := cls }], sannots⟩
         = Except.ok [])
  ∧ (∀ (catalog : List (String × CniQoSClass)) (reqs : List QoSRequest)
       (a b : List (String × String)),
       generateCniQoSResourceOpts catalog ⟨reqs, a⟩
         = generateCniQoSResourceOpts catalog ⟨reqs, b⟩) := by
  refine ⟨?_, ?_, ?_, ?_, ?_⟩
  · intro catalog config r cap bw hfind hlook
    simp [generateCniQoSResourceOpts, hfind, hlook]
  · intro catalog config r cap hfind hlook
    simp [generateCniQoSResourceOpts, hfind, hlook]
  · intro catalog config r hfind hlook
    simp [generateCniQoSResourceOpts, hfind, hlook]
  · intro cls sannots hne
    simp [generateSandboxQoSResourceSpecOpts, validateSandboxRequests,
      QoSResourceNet, hne]
  · intro catalog reqs a b
    rfl

/-- C7 witness: a catalog with "gold" carrying bandwidth parameters yields
the bandwidth namespace option, an absent class "nope" errors, and a sandbox
net request yields no spec-opt mutation. -/
theorem c7_witness :
    generateCniQoSResourceOpts
        [("gold", { capacity := 5,
                    bandWidth := some { ingressRate := 10, ingressBurst := 1,
                                        egressRate := 10, egressBurst := 1 } })]
        ⟨[{ name := QoSResourceNet, className := "gold" }], []⟩
      = Except.ok [CNINamespaceOpt.withCapabilityBandWidth
          { ingressRate := 10, ingressBurst := 1, egressRate := 10, egressBurst := 1 }]
    ∧ generateCniQoSResourceOpts
        [("gold", { capacity := 5, bandWidth := none })]
        ⟨[{ name := QoSResourceNet, className := "nope" }], []⟩
      = Except.error (GoError.unknownClass QoSResourceNet "nope")
    ∧ generateSandboxQoSResourceSpecOpts
        ⟨[{ name := QoSResourceNet, className := "gold" }], []⟩
      = Except.ok [] := by
  refine ⟨?_, ?_, ?_⟩
  · exact c7_net_class_catalog_lookup.1
      [("gold", { capacity := 5,
                  bandWidth := some { ingressRate := 10, ingressBurst := 1,
                                      egressRate := 10, egressBurst := 1 } })]
      ⟨[{ name := QoSResourceNet, className := "gold" }], []⟩
      { name := QoSResourceNet, className := "gold" } 5
      { ingressRate := 10, ingressBurst := 1, egressRate := 10, egressBurst := 1 }
      rfl rfl
  · exact c7_net_class_catalog_lookup.2.2.1
      [("gold", { capacity := 5, bandWidth := none })]
      ⟨[{ name := QoSResourceNet, className := "nope" }], []⟩
      { name := QoSResourceNet, className := "nope" } rfl rfl
  · exact c7_net_class_catalog_lookup.2.2.2.1 "gold" [] (by decide)

/-- C8: in the negotiation round-trip, a reply whose bandwidth class is valid
in the catalog merges to the agent's bandwidth with every other field as in
the draft (the agent having left them unchanged), while a reply naming a
class absent from the catalog is rejected with NegotiationRejected instead of
falling back to the draft. -/
theorem c8_negotiation_merge :
    (∀ (catalog : List (String × CniQoSClass)) (draft reply : NetworkDraftConfig),
       (catalog.lookup reply.bandwidth).isSome = true →
       reply.portMappings = draft.portMappings →
       reply.labels = draft.labels →
       reply.dns = draft.dns →
       mergeAdjustedNetworkConfig catalog draft reply
         = Except.ok { portMappings := draft.portMappings,
                       bandwidth := reply.bandwidth,
                       labels := draft.labels,
                       dns := draft.dns })
  ∧ (∀ (catalog : List (String × CniQoSClass)) (draft reply : NetworkDraftConfig),
       catalog.lookup reply.bandwidth = none →
       mergeAdjustedNetworkConfig catalog draft reply
         = Except.error (NegotiationError.negotiationRejected reply.bandwidth)) := by
  constructor
  · intro catalog draft reply hlook hp hl hd
    simp [mergeAdjustedNetworkConfig, hlook, hp, hl, hd]
  · intro catalog draft reply hlook
    simp [mergeAdjustedNetworkConfig, hlook]

/-- C8 witness: the spec's example — draft ports 80 to 8080, bandwidth
"10Mbps", label tier=a, empty dns; an agent reply changing only the bandwidth
to the valid class "5Mbps" merges to the draft with bandwidth "5Mbps", and a
reply naming the nonexistent class "7Mbps" is rejected. -/
theorem c8_witness :
    mergeAdjustedNetworkConfig
        [("10Mbps", { capacity := 2, bandWidth := none }),
         ("5Mbps", { capacity := 4, bandWidth := none })]
        { portMappings := [(80, 8080)], bandwidth := "10Mbps",
          labels := [("tier", "a")], dns := [] }
        { portMappings := [(80, 8080)], bandwidth := "5Mbps",
          labels := [("tier", "a")], dns := [] }
      = Except.ok { portMappings := [(80, 8080)], bandwidth := "5Mbps",
                    labels := [("tier", "a")], dns := [] }
    ∧ mergeAdjustedNetworkConfig
        [("10Mbps", { capacity := 2, bandWidth := none }),
         ("5Mbps", { capacity := 4, bandWidth := none })]
        { portMappings := [(80, 8080)], bandwidth := "10Mbps",
          labels := [("tier", "a")], dns := [] }
        { portMappings := [(80, 8080)], bandwidth := "7Mbps",
          labels := [("tier", "a")], dns := [] }
      = Except.error (NegotiationError.negotiationRejected "7Mbps") := by
  constructor
  · exact c8_negotiation_merge.1
      [("10Mbps", { capacity := 2, bandWidth := none }),
       ("5Mbps", { capacity := 4, bandWidth := none })]
      { portMappings := [(80, 8080)], bandwidth := "10Mbps",
        labels := [("tier", "a")], dns := [] }
      { portMappings := [(80, 8080)], bandwidth := "5Mbps",
        labels := [("tier", "a")], dns := [] }
      rfl rfl rfl rfl
  · exact c8_negotiation_merge.2
      [("10Mbps", { capacity := 2, bandWidth := none }),
       ("5Mbps", { capacity := 4, bandWidth := none })]
      { portMappings := [(80, 8080)], bandwidth := "10Mbps",
        labels := [("tier", "a")], dns := [] }
      { portMappings := [(80, 8080)], bandwidth := "7Mbps",
        labels := [("tier", "a")], dns := [] }
      rfl
